import Mathlib

/-!
Verification development for the SavFlo personal-finance application's
derived-metrics and insight-generation engine.

The TypeScript source is embedded shallowly:

* JavaScript numbers are idealised as exact rationals (`Rat`).  Where a
  division can hit a zero denominator (JavaScript then produces
  `Infinity`, `-Infinity` or `NaN` instead of throwing), the result is
  modelled by `JSNum`, a rational extended with the three IEEE special
  values, together with the JavaScript comparison semantics (every
  comparison with `NaN` is false).
* Calendar dates (the app stores day-granularity ISO timestamps) are
  modelled by a proleptic-Gregorian `Date` structure.
* Fallible code paths are modelled with `Except`/`Option`.

Every definition is a direct transcription of the corresponding source
function; names follow the source where Lean allows it.
-/

namespace SavFlo

/-! ## JavaScript number model -/

/-- A JavaScript number that may be one of the IEEE special values
produced by dividing by zero. -/
inductive JSNum where
  | num : Rat → JSNum
  | posInf : JSNum
  | negInf : JSNum
  | nan : JSNum
deriving DecidableEq

/-- JavaScript division `a / b` on day-to-day finite values: division by
zero yields `Infinity`, `-Infinity` or `NaN` according to the sign of the
numerator. -/
def jsDiv (a b : Rat) : JSNum :=
  if b = 0 then
    if 0 < a then .posInf else if a < 0 then .negInf else .nan
  else
    .num (a / b)

namespace JSNum

/-- Multiplication of a JavaScript number by a finite constant (used for
`x * 100`). -/
def mulConst : JSNum → Rat → JSNum
  | num a, c => num (a * c)
  | posInf, c => if 0 < c then posInf else if c < 0 then negInf else nan
  | negInf, c => if 0 < c then negInf else if c < 0 then posInf else nan
  | nan, _ => nan

/-- JavaScript `x >= c` against a finite constant; false for `NaN`. -/
def geR : JSNum → Rat → Bool
  | num a, c => decide (c ≤ a)
  | posInf, _ => true
  | negInf, _ => false
  | nan, _ => false

/-- JavaScript `x < c` against a finite constant; false for `NaN`. -/
def ltR : JSNum → Rat → Bool
  | num a, c => decide (a < c)
  | posInf, _ => false
  | negInf, _ => true
  | nan, _ => false

/-- JavaScript `x > c` against a finite constant; false for `NaN`. -/
def gtR : JSNum → Rat → Bool
  | num a, c => decide (c < a)
  | posInf, _ => true
  | negInf, _ => false
  | nan, _ => false

/-- `Math.min (x, c)` for a finite constant `c`; `NaN` propagates. -/
def minConst : JSNum → Rat → JSNum
  | num a, c => num (min a c)
  | posInf, c => num c
  | negInf, _ => negInf
  | nan, _ => nan

end JSNum

/-! ## Budgets (`BudgetTracker` component) -/

/-- The budget record consumed by the tracker (bookkeeping fields such as
`id` and timestamps are omitted: the calculators never read them). -/
structure BudgetModel where
  category_name : String
  monthly_limit : Rat
  current_spent : Rat
  alert_threshold : Rat
  is_active : Bool
deriving DecidableEq

/-- The utilization percentage `(budget.current_spent / budget.monthly_limit) * 100`
computed inside `getBudgetStatus` (and again at the render site). -/
def budgetPercentage (b : BudgetModel) : JSNum :=
  (jsDiv b.current_spent b.monthly_limit).mulConst 100

/-- `getBudgetStatus` from `BudgetTracker`:
the `warning` test (`percentage >= alert_threshold`) runs before the
`exceeded` test (`percentage >= 100`). -/
def getBudgetStatus (b : BudgetModel) : String :=
  if (budgetPercentage b).geR b.alert_threshold then "warning"
  else if (budgetPercentage b).geR 100 then "exceeded"
  else "ok"

/-! ## Savings goals (`SavingsGoals` component) -/

/-- The savings-goal record consumed by the goals view. -/
structure SavingsGoalModel where
  goal_name : String
  target_amount : Rat
  current_amount : Rat
  priority_level : Nat
  is_completed : Bool
deriving DecidableEq

/-- A milestone entry of the `MILESTONES` constant. -/
structure Milestone where
  percentage : Rat
  label : String
  message : String
deriving DecidableEq

/-- The `MILESTONES` constant of `SavingsGoals`. -/
def MILESTONES : List Milestone :=
  [⟨25, "25% Complete", "Great start! You're building momentum!"⟩,
   ⟨50, "Halfway There!", "Amazing progress! Keep it going!"⟩,
   ⟨75, "75% Complete", "You're so close! Don't give up now!"⟩,
   ⟨100, "Goal Achieved!", "Congratulations! You did it!"⟩]

/-- The state written back (and the toast chosen) by `handleAddContribution`
once its amount guard has passed. -/
structure ContributionResult where
  newAmount : Rat
  isCompleted : Bool
  milestone : Option Milestone
deriving DecidableEq

/-- Core of `handleAddContribution`: the new amount, the derived
`is_completed` flag, and the milestone found by
`MILESTONES.find(m => oldPercentage < m.percentage && newPercentage >= m.percentage)`. -/
def applyContribution (goal : SavingsGoalModel) (contribution : Rat) : ContributionResult :=
  let newAmount := goal.current_amount + contribution
  let isCompleted := decide (goal.target_amount ≤ newAmount)
  let oldPercentage := (jsDiv goal.current_amount goal.target_amount).mulConst 100
  let newPercentage := (jsDiv newAmount goal.target_amount).mulConst 100
  let achievedMilestone := MILESTONES.find? fun m =>
    oldPercentage.ltR m.percentage && newPercentage.geR m.percentage
  ⟨newAmount, isCompleted, achievedMilestone⟩

/-- `handleAddContribution` rejects a missing, zero or negative contribution
amount before touching the goal. -/
def handleAddContribution (goal : SavingsGoalModel) (contribution : Rat) :
    Option ContributionResult :=
  if contribution ≤ 0 then none else some (applyContribution goal contribution)

/-- `getProgress` from `SavingsGoals`:
`Math.min((goal.current_amount / goal.target_amount) * 100, 100)`. -/
def getProgress (goal : SavingsGoalModel) : JSNum :=
  ((jsDiv goal.current_amount goal.target_amount).mulConst 100).minConst 100

/-! ## Calendar model

The analytics view works at day granularity: transaction timestamps are
`YYYY-MM-DD` strings parsed to local midnight, and all the `date-fns`
helpers used (`startOfWeek`, `endOfMonth`, `subMonths`, ...) land on day
boundaries, so a proleptic-Gregorian date triple is a faithful model and
timestamp order is the order of day numbers. -/

/-- A calendar date.  `month` runs 1–12 and `day` 1–31 on valid dates. -/
structure Date where
  year : Nat
  month : Nat
  day : Nat
deriving DecidableEq

/-- Gregorian leap-year rule. -/
def isLeapYear (y : Nat) : Bool :=
  (y % 4 == 0 && y % 100 != 0) || y % 400 == 0

/-- Length of month `m` of year `y`. -/
def daysInMonth (y m : Nat) : Nat :=
  if m = 2 then (if isLeapYear y then 29 else 28)
  else if m = 4 ∨ m = 6 ∨ m = 9 ∨ m = 11 then 30
  else 31

/-- A date whose fields lie in calendar range (year 1 onward). -/
def Date.Valid (d : Date) : Prop :=
  1 ≤ d.year ∧ 1 ≤ d.month ∧ d.month ≤ 12 ∧ 1 ≤ d.day ∧ d.day ≤ daysInMonth d.year d.month

instance (d : Date) : Decidable d.Valid := by
  unfold Date.Valid; infer_instance

/-- Days strictly before year `y` in the proleptic Gregorian calendar
(so `daysBeforeYear 1 = 0`). -/
def daysBeforeYear (y : Nat) : Nat :=
  365 * (y - 1) + (y - 1) / 4 + (y - 1) / 400 - (y - 1) / 100

/-- Days of year `y` strictly before month `m`. -/
def daysBeforeMonth (y : Nat) : Nat → Nat
  | 0 => 0
  | m + 1 => if m = 0 then 0 else daysBeforeMonth y m + daysInMonth y m

/-- Rata-die day number: `rataDie ⟨1, 1, 1⟩ = 1`. -/
def rataDie (d : Date) : Nat :=
  daysBeforeYear d.year + daysBeforeMonth d.year d.month + d.day

/-- Timestamp comparison of two day-granularity dates. -/
def dateLE (a b : Date) : Bool := decide (rataDie a ≤ rataDie b)

/-- The calendar day before `d` (the effect of JavaScript
`date.setDate(date.getDate() - 1)`, which rolls over month and year
boundaries). -/
def predDay (d : Date) : Date :=
  if 1 < d.day then ⟨d.year, d.month, d.day - 1⟩
  else if 1 < d.month then ⟨d.year, d.month - 1, daysInMonth d.year (d.month - 1)⟩
  else ⟨d.year - 1, 12, 31⟩

/-- The calendar day after `d`. -/
def succDay (d : Date) : Date :=
  if d.day < daysInMonth d.year d.month then ⟨d.year, d.month, d.day + 1⟩
  else if d.month < 12 then ⟨d.year, d.month + 1, 1⟩
  else ⟨d.year + 1, 1, 1⟩

/-- `d` moved back `n` days. -/
def subDays (d : Date) : Nat → Date
  | 0 => d
  | n + 1 => predDay (subDays d n)

/-- `d` moved forward `n` days. -/
def addDays (d : Date) : Nat → Date
  | 0 => d
  | n + 1 => succDay (addDays d n)

/-- Day of week, Sunday = 0 (rata die 1, 0001-01-01, was a Monday in the
proleptic Gregorian calendar). -/
def dayOfWeek (d : Date) : Nat := rataDie d % 7

/-- `date-fns` `startOfWeek` with the default `weekStartsOn = 0`: the
Sunday on or before `d`. -/
def startOfWeek (d : Date) : Date := subDays d (dayOfWeek d)

/-- `date-fns` `endOfWeek`: the Saturday on or after `d`. -/
def endOfWeek (d : Date) : Date := addDays d (6 - dayOfWeek d)

/-- `date-fns` `startOfMonth`. -/
def startOfMonth (d : Date) : Date := ⟨d.year, d.month, 1⟩

/-- `date-fns` `endOfMonth` (day granularity). -/
def endOfMonth (d : Date) : Date := ⟨d.year, d.month, daysInMonth d.year d.month⟩

/-- First month of the quarter containing month `m`. -/
def quarterStartMonth (m : Nat) : Nat := 3 * ((m - 1) / 3) + 1

/-- `date-fns` `startOfQuarter`. -/
def startOfQuarter (d : Date) : Date := ⟨d.year, quarterStartMonth d.month, 1⟩

/-- `date-fns` `endOfQuarter` (day granularity). -/
def endOfQuarter (d : Date) : Date :=
  ⟨d.year, quarterStartMonth d.month + 2, daysInMonth d.year (quarterStartMonth d.month + 2)⟩

/-- `date-fns` `startOfYear`. -/
def startOfYear (d : Date) : Date := ⟨d.year, 1, 1⟩

/-- `date-fns` `endOfYear` (day granularity). -/
def endOfYear (d : Date) : Date := ⟨d.year, 12, 31⟩

/-- `date-fns` `subMonths(d, 1)`: the month is decremented and the day
clamped to the length of the resulting month. -/
def subMonths1 (d : Date) : Date :=
  if d.month = 1 then ⟨d.year - 1, 12, min d.day (daysInMonth (d.year - 1) 12)⟩
  else ⟨d.year, d.month - 1, min d.day (daysInMonth d.year (d.month - 1))⟩

/-- JavaScript `setFullYear(year - 1)`: the day of month is kept and
overflow rolls into the next month (Feb 29 of a leap year lands on
Mar 1 of the previous, non-leap year). -/
def subYears1 (d : Date) : Date :=
  if daysInMonth (d.year - 1) d.month < d.day then
    ⟨d.year - 1, d.month + 1, d.day - daysInMonth (d.year - 1) d.month⟩
  else ⟨d.year - 1, d.month, d.day⟩

/-! ## Spending analytics (`SpendingAnalytics` component) -/

/-- The transaction record read by the analytics view (category is the
numeric ORM enum; other fields are not read by the analytics). -/
structure TransactionModel where
  amount : Rat
  category : Nat
  transaction_time : Date
deriving DecidableEq

/-- The analytics time filter. -/
inductive TimeFilter where
  | weekly | monthly | quarterly | yearly
deriving DecidableEq

/-- An inclusive `[start, end]` window (the source's `{ start, end }`;
`end` is a Lean keyword, hence `endDate`). -/
structure DateRange where
  start : Date
  endDate : Date
deriving DecidableEq

/-- The `dateRange` memo: calendar-aligned current window for the filter. -/
def dateRange (timeFilter : TimeFilter) (now : Date) : DateRange :=
  match timeFilter with
  | .weekly => ⟨startOfWeek now, endOfWeek now⟩
  | .monthly => ⟨startOfMonth now, endOfMonth now⟩
  | .quarterly => ⟨startOfQuarter now, endOfQuarter now⟩
  | .yearly => ⟨startOfYear now, endOfYear now⟩

/-- The previous window computed inside the `previousPeriodTransactions`
memo.  Weekly and quarterly step back from the current window start;
monthly and yearly step back from `now` itself. -/
def previousPeriodRange (timeFilter : TimeFilter) (now : Date) : DateRange :=
  match timeFilter with
  | .weekly =>
    let prevEnd := predDay (dateRange .weekly now).start
    ⟨startOfWeek prevEnd, prevEnd⟩
  | .monthly =>
    let prevMonth := subMonths1 now
    ⟨startOfMonth prevMonth, endOfMonth prevMonth⟩
  | .quarterly =>
    let prevEnd := predDay (dateRange .quarterly now).start
    ⟨startOfQuarter prevEnd, prevEnd⟩
  | .yearly =>
    let prevYear := subYears1 now
    ⟨startOfYear prevYear, endOfYear prevYear⟩

/-- Membership test of the transaction filters:
`txDate >= range.start && txDate <= range.end` (inclusive on both ends). -/
def inRange (range : DateRange) (tx : TransactionModel) : Bool :=
  dateLE range.start tx.transaction_time && dateLE tx.transaction_time range.endDate

/-- The `filteredTransactions` memo. -/
def filteredTransactions (transactions : List TransactionModel)
    (timeFilter : TimeFilter) (now : Date) : List TransactionModel :=
  transactions.filter (inRange (dateRange timeFilter now))

/-- The `previousPeriodTransactions` memo. -/
def previousPeriodTransactions (transactions : List TransactionModel)
    (timeFilter : TimeFilter) (now : Date) : List TransactionModel :=
  transactions.filter (inRange (previousPeriodRange timeFilter now))

/-- The `totalSpending` reduction: sum of the filtered amounts. -/
def totalSpending (transactions : List TransactionModel) : Rat :=
  (transactions.map (·.amount)).sum

/-- The `changePercentage` memo of `SpendingAnalytics`. -/
def changePercentage (totalSpending previousTotalSpending : Rat) : Rat :=
  if previousTotalSpending = 0 then (if 0 < totalSpending then 100 else 0)
  else (totalSpending - previousTotalSpending) / previousTotalSpending * 100

/-! ## Subscriptions (`SubscriptionTracker` component) -/

/-- The ORM billing-cycle enum: the three named cycles plus the enum's
unspecified default (any value outside the three named ones). -/
inductive SubscriptionBillingCycle where
  | Weekly | Monthly | Yearly | Unspecified
deriving DecidableEq

/-- The subscription record read by the tracker. -/
structure SubscriptionModel where
  service_name : String
  amount : Rat
  billing_cycle : SubscriptionBillingCycle
  is_active : Bool
  category : String
deriving DecidableEq

/-- An entry of the `BILLING_CYCLES` constant. -/
structure BillingCycleInfo where
  value : SubscriptionBillingCycle
  label : String
  multiplier : Rat
deriving DecidableEq

/-- The `BILLING_CYCLES` constant of `SubscriptionTracker`. -/
def BILLING_CYCLES : List BillingCycleInfo :=
  [⟨.Weekly, "Weekly", 52⟩, ⟨.Monthly, "Monthly", 12⟩, ⟨.Yearly, "Yearly", 1⟩]

/-- `getYearlyCost`: `BILLING_CYCLES.find(...)?.multiplier || 12` — a cycle
missing from the table falls back to multiplier 12 (as would a falsy
multiplier, which the table never contains). -/
def getYearlyCost (amount : Rat) (cycle : SubscriptionBillingCycle) : Rat :=
  let multiplier :=
    match (BILLING_CYCLES.find? fun bc => bc.value = cycle).map (·.multiplier) with
    | some m => if m = 0 then 12 else m
    | none => 12
  amount * multiplier

/-- `getTotalMonthlySpend`: active subscriptions only, each contributing
its yearly cost divided by 12. -/
def getTotalMonthlySpend (subscriptions : List SubscriptionModel) : Rat :=
  ((subscriptions.filter (·.is_active)).map
    (fun sub => getYearlyCost sub.amount sub.billing_cycle / 12)).sum

/-- `getTotalYearlySpend`: active subscriptions only. -/
def getTotalYearlySpend (subscriptions : List SubscriptionModel) : Rat :=
  ((subscriptions.filter (·.is_active)).map
    (fun sub => getYearlyCost sub.amount sub.billing_cycle)).sum

/-! ## String utilities for the AI hook (`use-openai-gpt-chat.ts`)

The hook's parsing is line- and substring-based; we model strings by their
character lists.  JavaScript `\s` is idealised by `Char.isWhitespace` and
regex case-insensitivity by `Char.toLower`. -/

/-- JavaScript whitespace (the lines being scanned contain no newline). -/
def isWsChar (c : Char) : Bool := c.isWhitespace

/-- Both surrounding whitespace runs removed: JavaScript `trim()`. -/
def trimChars (cs : List Char) : List Char :=
  ((cs.dropWhile isWsChar).reverse.dropWhile isWsChar).reverse

/-- `s.trim()` on the character-list model. -/
def strTrim (s : String) : String := String.mk (trimChars s.toList)

/-- `content.split('\n')` on the character-list model (empty segments are
kept, as JavaScript `split` keeps them). -/
def splitNewlines : List Char → List Char → List (List Char)
  | [], acc => [acc.reverse]
  | c :: cs, acc =>
    if c = '\n' then acc.reverse :: splitNewlines cs []
    else splitNewlines cs (c :: acc)

/-- `content.split('\n').filter(line => line.trim())`: the original lines
whose trimmed form is non-empty. -/
def contentLines (content : String) : List String :=
  ((splitNewlines content.toList []).map String.mk).filter fun line => strTrim line ≠ ""

/-- Is `pat` (already lower-case) a case-insensitive prefix of `s`? -/
def isPrefixCI : List Char → List Char → Bool
  | [], _ => true
  | _ :: _, [] => false
  | p :: ps, c :: cs => p == c.toLower && isPrefixCI ps cs

/-- The characters after the leftmost case-insensitive occurrence of `pat`. -/
def findMarkerSuffix (pat : List Char) : List Char → Option (List Char)
  | [] => none
  | c :: cs =>
    if isPrefixCI pat (c :: cs) then some ((c :: cs).drop pat.length)
    else findMarkerSuffix pat cs

/-- `line.match(/RECOMMENDATION:\s*(.+)/i)` followed by the source's
`.trim()` on the capture.  The regex matches iff at least one character
follows an occurrence of the marker (`\s*` gives characters back to `.+`
when needed, so trimming the capture equals trimming the whole suffix);
when the leftmost occurrence ends the line it is also the only one. -/
def recommendationAction (line : String) : Option String :=
  match findMarkerSuffix "recommendation:".toList line.toList with
  | some suffix => if suffix.isEmpty then none else some (strTrim (String.mk suffix))
  | none => none

/-- Numeric value of a decimal digit. -/
def digitVal (c : Char) : Nat := c.toNat - '0'.toNat

/-- Value of a non-empty digit string. -/
def digitsToNat (ds : List Char) : Nat := ds.foldl (fun n c => 10 * n + digitVal c) 0

/-- Tail of `/SAVINGS:\s*\$?(\d+(?:\.\d{2})?)/i` after the marker: skip
whitespace and an optional dollar sign, then `parseFloat` of the capture
(an integer, optionally with exactly two decimals). -/
def savingsAmountAfter (suffix : List Char) : Option Rat :=
  let s1 := suffix.dropWhile isWsChar
  let s2 := match s1 with | '$' :: rest => rest | _ => s1
  let ds := s2.takeWhile Char.isDigit
  if ds.isEmpty then none
  else
    match s2.drop ds.length with
    | '.' :: d1 :: d2 :: _ =>
      if d1.isDigit && d2.isDigit then
        some ((digitsToNat ds : Rat) + ((10 * digitVal d1 + digitVal d2 : Nat) : Rat) / 100)
      else some ((digitsToNat ds : Rat))
    | _ => some ((digitsToNat ds : Rat))

/-- `line.match(/SAVINGS:\s*\$?(\d+(?:\.\d{2})?)/i)`: the regex engine
tries each start position left to right. -/
def savingsMatch : List Char → Option Rat
  | [] => none
  | c :: rest =>
    if isPrefixCI "savings:".toList (c :: rest) then
      match savingsAmountAfter ((c :: rest).drop 8) with
      | some v => some v
      | none => savingsMatch rest
    else savingsMatch rest

/-- A parsed difficulty rating. -/
inductive Difficulty where
  | easy | medium | hard
deriving DecidableEq

/-- Tail of `/DIFFICULTY:\s*(easy|medium|hard)/i` after the marker (the
source lower-cases the capture, which the constructors already are). -/
def difficultyAfter (suffix : List Char) : Option Difficulty :=
  let s := suffix.dropWhile isWsChar
  if isPrefixCI "easy".toList s then some .easy
  else if isPrefixCI "medium".toList s then some .medium
  else if isPrefixCI "hard".toList s then some .hard
  else none

/-- `line.match(/DIFFICULTY:\s*(easy|medium|hard)/i)`. -/
def difficultyMatch : List Char → Option Difficulty
  | [] => none
  | c :: rest =>
    if isPrefixCI "difficulty:".toList (c :: rest) then
      match difficultyAfter ((c :: rest).drop 11) with
      | some v => some v
      | none => difficultyMatch rest
    else difficultyMatch rest

/-- `l.match(/RECOMMENDATION:|SAVINGS:|DIFFICULTY:/i)`. -/
def hasMarker (line : String) : Bool :=
  (findMarkerSuffix "recommendation:".toList line.toList).isSome
  || (findMarkerSuffix "savings:".toList line.toList).isSome
  || (findMarkerSuffix "difficulty:".toList line.toList).isSome

/-- `line.match(/^\d+\./)`. -/
def startsWithDigitsDot (line : String) : Bool :=
  let ds := line.toList.takeWhile Char.isDigit
  !ds.isEmpty && (line.toList.drop ds.length).head? == some '.'

/-- The bullet test `line.includes('-') || line.includes('•') || line.match(/^\d+\./)`. -/
def isBulletLine (line : String) : Bool :=
  line.toList.contains '-' || line.toList.contains '•' || startsWithDigitsDot line

/-- If `cs` starts with `\d+\.\s*`, the remainder after that match. -/
def dropDigitsDotAt (cs : List Char) : Option (List Char) :=
  let ds := cs.takeWhile Char.isDigit
  if ds.isEmpty then none
  else match cs.drop ds.length with
    | '.' :: rest => some (rest.dropWhile isWsChar)
    | _ => none

/-- Remove the leftmost (unanchored) `\d+\.\s*` match, if any. -/
def replaceFirstDigitsDot : List Char → List Char
  | [] => []
  | c :: cs =>
    match dropDigitsDotAt (c :: cs) with
    | some rest => rest
    | none => c :: replaceFirstDigitsDot cs

/-- `s.replace(/^[-•]\s*|\d+\.\s*/, '')`: a leading bullet character (with
its trailing whitespace) wins at position 0, otherwise the leftmost
digits-dot match anywhere in the line is removed. -/
def stripBullet (line : String) : String :=
  match line.toList with
  | [] => ""
  | c :: rest =>
    if c == '-' || c == '•' then String.mk (rest.dropWhile isWsChar)
    else String.mk (replaceFirstDigitsDot (c :: rest))

/-! ## AI hook data model (`use-openai-gpt-chat.ts`) -/

/-- The hook's `Transaction` interface. -/
structure Transaction where
  id : String
  amount : Rat
  category : String
  description : String
  date : String
  merchant : Option String
deriving DecidableEq

/-- A per-category entry of the hook's `BudgetStatus`. -/
structure BudgetCategory where
  name : String
  budget : Rat
  spent : Rat
deriving DecidableEq

/-- The hook's `BudgetStatus` interface. -/
structure BudgetStatus where
  totalBudget : Rat
  spent : Rat
  remaining : Rat
  categories : List BudgetCategory
deriving DecidableEq

/-- An entry of `SpendingPattern.topCategories`. -/
structure TopCategory where
  category : String
  amount : Rat
  percentage : Rat
deriving DecidableEq

/-- The hook's `SpendingPattern` interface (the optional `trends` field is
never read by either hook and is omitted). -/
structure SpendingPattern where
  averageDaily : Rat
  topCategories : List TopCategory
deriving DecidableEq

/-- The hook's `SavingsGoal` interface (`priority` is one of the strings
`high`, `medium`, `low`). -/
structure SavingsGoal where
  id : String
  name : String
  targetAmount : Rat
  currentAmount : Rat
  deadline : String
  priority : String
deriving DecidableEq

/-- Input of `useGenerateDailyInsight`; `Option` models the JavaScript
falsy guards on the two object fields (the unused `userContext` is
omitted). -/
structure GenerateDailyInsightInput where
  transactions : List Transaction
  budgetStatus : Option BudgetStatus
  spendingPatterns : Option SpendingPattern
deriving DecidableEq

/-- Input of `useGenerateSavingsRecommendation`. -/
structure GenerateSavingsRecommendationInput where
  savingsGoal : Option SavingsGoal
  transactions : List Transaction
  monthlyIncome : Rat
  spendingPatterns : Option SpendingPattern
  timeframeMonths : Option Rat
deriving DecidableEq

/-- The outgoing chat-completion request (the fixed routing headers are
configuration, not computation, and are omitted). -/
structure ChatRequest where
  model : String
  systemPrompt : String
  userPrompt : String
deriving DecidableEq

/-- `toFixed(digits)`, idealised on exact rationals (round to nearest). -/
def ratToFixed (q : Rat) (digits : Nat) : String :=
  let scaled : Int := round (q * (10 : Rat) ^ digits)
  let a := scaled.natAbs
  let p := 10 ^ digits
  let fracStr := toString (a % p)
  let fracPad := String.mk (List.replicate (digits - fracStr.length) '0') ++ fracStr
  (if scaled < 0 then "-" else "") ++ toString (a / p) ++
    (if digits = 0 then "" else "." ++ fracPad)

/-- `t.description || t.merchant || 'Purchase'`. -/
def txLabel (t : Transaction) : String :=
  if t.description ≠ "" then t.description
  else match t.merchant with
    | some m => if m ≠ "" then m else "Purchase"
    | none => "Purchase"

/-- One line of the transaction listings in both prompts. -/
def txLine (t : Transaction) : String :=
  "- " ++ txLabel t ++ ": $" ++ ratToFixed t.amount 2 ++ " (" ++ t.category ++ ")"

/-- The daily-insight system prompt. -/
def dailyInsightSystemPrompt : String :=
  "You are a friendly and insightful personal finance advisor. Analyze the user's spending data and provide a concise, personalized daily insight in 2-3 sentences. Focus on actionable advice and encouraging tone. Be specific about amounts and categories."

/-- The daily-insight user prompt (the template literal of lines 122-143). -/
def dailyInsightUserPrompt (transactions : List Transaction)
    (budgetStatus : BudgetStatus) (spendingPatterns : SpendingPattern) : String :=
  let totalSpent := (transactions.map (·.amount)).sum
  let transactionCount := transactions.length
  "\nAnalyze my spending from yesterday:\n\nTransactions (" ++ toString transactionCount
    ++ " total):\n"
    ++ String.intercalate "\n" ((transactions.take 10).map txLine) ++ "\n"
    ++ (if 10 < transactionCount then
          "... and " ++ toString (transactionCount - 10) ++ " more transactions" else "")
    ++ "\n\nTotal spent yesterday: $" ++ ratToFixed totalSpent 2
    ++ "\n\nBudget Status:\n- Total Budget: $" ++ ratToFixed budgetStatus.totalBudget 2
    ++ "\n- Already Spent: $" ++ ratToFixed budgetStatus.spent 2
    ++ "\n- Remaining: $" ++ ratToFixed budgetStatus.remaining 2
    ++ "\n\nTop Spending Categories:\n"
    ++ String.intercalate "\n" ((spendingPatterns.topCategories.take 3).map fun c =>
         "- " ++ c.category ++ ": $" ++ ratToFixed c.amount 2 ++ " ("
           ++ ratToFixed c.percentage 1 ++ "% of total)")
    ++ "\n\nProvide a personalized insight and 2-3 actionable suggestions to improve my spending habits."

/-- Validation plus prompt building of `useGenerateDailyInsight` — everything
that runs before `createChatCompletion` is invoked.  An `error` is a thrown
validation `Error`; an `ok` is the request handed to the network layer. -/
def buildDailyInsightRequest (input : GenerateDailyInsightInput) :
    Except String ChatRequest :=
  if input.transactions.isEmpty then
    .error "At least one transaction is required to generate insights"
  else
    match input.budgetStatus with
    | none => .error "Budget status is required to generate insights"
    | some budgetStatus =>
      match input.spendingPatterns with
      | none => .error "Spending patterns are required to generate insights"
      | some spendingPatterns =>
        .ok { model := "MaaS_4.1"
              systemPrompt := dailyInsightSystemPrompt
              userPrompt := dailyInsightUserPrompt input.transactions budgetStatus spendingPatterns }

/-- Sentiment of a daily insight. -/
inductive Sentiment where
  | positive | neutral | warning
deriving DecidableEq

/-- Result of `useGenerateDailyInsight` (metadata flattened). -/
structure GenerateDailyInsightResponse where
  insight : String
  suggestions : List String
  sentiment : Sentiment
  tokensUsed : Nat
  modelUsed : String
deriving DecidableEq

/-- The post-response half of `useGenerateDailyInsight`'s mutation: split the
(non-empty) content into insight and suggestions and classify sentiment from
the budget-utilization ratio `spent / totalBudget`. -/
def parseDailyInsightContent (budgetStatus : BudgetStatus) (content : String)
    (totalTokens : Option Nat) (model : String) : GenerateDailyInsightResponse :=
  let lines := contentLines content
  let insight := String.intercalate " " (lines.take 2)
  let suggestions := ((lines.drop 2).filter isBulletLine).map fun s => strTrim (stripBullet s)
  let budgetUtilization := jsDiv budgetStatus.spent budgetStatus.totalBudget
  let sentiment :=
    if budgetUtilization.ltR (7/10) then Sentiment.positive
    else if budgetUtilization.gtR (9/10) then Sentiment.warning
    else Sentiment.neutral
  { insight := if insight = "" then content else insight
    suggestions := if 0 < suggestions.length then suggestions else [content]
    sentiment := sentiment
    tokensUsed := totalTokens.getD 0
    modelUsed := model }

/-- A structured savings action extracted from the response. -/
structure SpecificAction where
  action : String
  potentialSavings : Rat
  difficulty : Difficulty
deriving DecidableEq

/-- The `currentAction` accumulator of the response scanner. -/
structure PartialAction where
  action : Option String
  savings : Option Rat
  difficulty : Option Difficulty
deriving DecidableEq

/-- The JavaScript completeness test
`currentAction.action && currentAction.savings !== undefined && currentAction.difficulty`
(an empty action string is falsy; a savings of 0 still passes `!== undefined`). -/
def PartialAction.completed : PartialAction → Option SpecificAction
  | ⟨some a, some s, some d⟩ => if a = "" then none else some ⟨a, s, d⟩
  | _ => none

/-- Push `cur` onto `actions` when complete. -/
def flushPartial (actions : List SpecificAction) (cur : PartialAction) :
    List SpecificAction :=
  match cur.completed with
  | some act => actions ++ [act]
  | none => actions

/-- One step of the `lines.forEach` scanner: a RECOMMENDATION line flushes
the record in progress and starts a new one; SAVINGS and DIFFICULTY lines
fill in the current record; other lines are ignored. -/
def parseLine (st : List SpecificAction × PartialAction) (line : String) :
    List SpecificAction × PartialAction :=
  match recommendationAction line with
  | some a => (flushPartial st.1 st.2, ⟨some a, none, none⟩)
  | none =>
    match savingsMatch line.toList with
    | some v => (st.1, { st.2 with savings := some v })
    | none =>
      match difficultyMatch line.toList with
      | some d => (st.1, { st.2 with difficulty := some d })
      | none => st

/-- The full scanner: fold over the lines, then keep the trailing record
only if all three fields were seen. -/
def extractActions (lines : List String) : List SpecificAction :=
  let st := lines.foldl parseLine ([], ⟨none, none, none⟩)
  flushPartial st.1 st.2

/-- The savings-recommendation system prompt. -/
def savingsSystemPrompt : String :=
  "You are an expert financial advisor specializing in savings strategies. Analyze the user's financial data and provide specific, actionable recommendations to accelerate their savings goal. Focus on realistic suggestions based on their spending patterns. Format your response with clear action items and estimated savings amounts."

/-- The savings-recommendation user prompt (template literal of
lines 314-349). -/
def savingsUserPrompt (savingsGoal : SavingsGoal) (transactions : List Transaction)
    (monthlyIncome : Rat) (spendingPatterns : SpendingPattern) : String :=
  let remainingToGoal := savingsGoal.targetAmount - savingsGoal.currentAmount
  let averageMonthlySpending := spendingPatterns.averageDaily * 30
  let currentMonthlySavings := monthlyIncome - averageMonthlySpending
  let monthsToGoal : Option Int :=
    if 0 < currentMonthlySavings then some ⌈remainingToGoal / currentMonthlySavings⌉ else none
  "\nHelp me reach my savings goal faster:\n\nSavings Goal: " ++ savingsGoal.name
    ++ "\n- Target: $" ++ ratToFixed savingsGoal.targetAmount 2
    ++ "\n- Current: $" ++ ratToFixed savingsGoal.currentAmount 2
    ++ "\n- Remaining: $" ++ ratToFixed remainingToGoal 2
    ++ "\n- Deadline: " ++ savingsGoal.deadline
    ++ "\n- Priority: " ++ savingsGoal.priority
    ++ "\n\nFinancial Situation:\n- Monthly Income: $" ++ ratToFixed monthlyIncome 2
    ++ "\n- Average Monthly Spending: $" ++ ratToFixed averageMonthlySpending 2
    ++ "\n- Current Monthly Savings: $" ++ ratToFixed currentMonthlySavings 2
    ++ "\n- Estimated months to goal at current rate: "
    ++ (match monthsToGoal with
        | none => "Cannot reach goal (spending exceeds income)"
        | some n => toString n)
    ++ "\n\nTop Spending Categories (potential reduction areas):\n"
    ++ String.intercalate "\n" (spendingPatterns.topCategories.map fun c =>
         "- " ++ c.category ++ ": $" ++ ratToFixed c.amount 2 ++ "/month ("
           ++ ratToFixed c.percentage 1 ++ "%)")
    ++ "\n\nRecent Transactions (sample):\n"
    ++ String.intercalate "\n" ((transactions.take 5).map txLine)
    ++ "\n\nProvide:\n1. 3-5 specific recommendations to increase my savings rate\n2. For each recommendation, estimate the monthly savings amount\n3. Rate each recommendation's difficulty (easy/medium/hard)\n4. Calculate how much faster I could reach my goal\n\nFormat as:\nRECOMMENDATION: [action]\nSAVINGS: $[amount]/month\nDIFFICULTY: [easy/medium/hard]"

/-- Validation plus prompt building of `useGenerateSavingsRecommendation` —
everything before `createChatCompletion` is invoked. -/
def buildSavingsRecommendationRequest (input : GenerateSavingsRecommendationInput) :
    Except String ChatRequest :=
  match input.savingsGoal with
  | none => .error "Savings goal is required"
  | some savingsGoal =>
    if input.transactions.isEmpty then
      .error "Transaction history is required to generate recommendations"
    else if input.monthlyIncome = 0 ∨ input.monthlyIncome ≤ 0 then
      .error "Valid monthly income is required"
    else
      match input.spendingPatterns with
      | none => .error "Spending patterns are required"
      | some spendingPatterns =>
        .ok { model := "MaaS_4.1"
              systemPrompt := savingsSystemPrompt
              userPrompt := savingsUserPrompt savingsGoal input.transactions
                input.monthlyIncome spendingPatterns }

/-- The `estimatedTimeToGoal` field of the savings response. -/
structure EstimatedTimeToGoal where
  months : Int
  description : String
deriving DecidableEq

/-- Result of `useGenerateSavingsRecommendation` (metadata flattened). -/
structure GenerateSavingsRecommendationResponse where
  recommendations : List String
  projectedSavingsIncrease : Rat
  estimatedTimeToGoal : EstimatedTimeToGoal
  specificActions : List SpecificAction
  tokensUsed : Nat
  modelUsed : String
deriving DecidableEq

/-- The post-response half of `useGenerateSavingsRecommendation`'s mutation
(given the metrics derived from the validated input and the non-empty
response content).  `Option Int` models months-to-goal with `none` for the
JavaScript `Infinity` branch. -/
def buildSavingsResponse (remainingToGoal currentMonthlySavings averageMonthlySpending : Rat)
    (content : String) (totalTokens : Option Nat) (model : String) :
    GenerateSavingsRecommendationResponse :=
  let lines := contentLines content
  let specificActions := extractActions lines
  let totalPotentialSavings := (specificActions.map (·.potentialSavings)).sum
  let newMonthlySavings := currentMonthlySavings + totalPotentialSavings
  let monthsToGoal : Option Int :=
    if 0 < currentMonthlySavings then some ⌈remainingToGoal / currentMonthlySavings⌉ else none
  let newMonthsToGoal : Option Int :=
    if 0 < newMonthlySavings then some ⌈remainingToGoal / newMonthlySavings⌉ else none
  let recommendations :=
    if 0 < specificActions.length then specificActions.map (·.action)
    else (lines.filter fun l => isBulletLine l && !hasMarker l).map fun s => strTrim (stripBullet s)
  let timeDescription :=
    match newMonthsToGoal with
    | none => "Additional income needed to reach goal"
    | some n =>
      match monthsToGoal with
      | none => "Infinity months faster than current pace"
      | some m =>
        if 0 < m - n then
          toString (m - n) ++ " month" ++ (if m - n ≠ 1 then "s" else "")
            ++ " faster than current pace"
        else
          toString n ++ " month" ++ (if n ≠ 1 then "s" else "") ++ " to reach goal"
  { recommendations := if 0 < recommendations.length then recommendations else [content]
    projectedSavingsIncrease := totalPotentialSavings
    estimatedTimeToGoal := ⟨newMonthsToGoal.getD (-1), timeDescription⟩
    specificActions :=
      if 0 < specificActions.length then specificActions
      else [⟨"Review and optimize spending across all categories",
             min (averageMonthlySpending * (1 / 10)) 200, .medium⟩]
    tokensUsed := totalTokens.getD 0
    modelUsed := model }

/-! ## Spec-side reference definitions

These follow the specification's wording (not the source) and exist only to
be compared with the transcribed definitions above. -/

/-- Spec-side cycle-multiplier table: weekly = 52, monthly = 12, yearly = 1,
and any unrecognized billing cycle is annualized with multiplier 12. -/
def specCycleMultiplier : SubscriptionBillingCycle → Rat
  | .Weekly => 52
  | .Monthly => 12
  | .Yearly => 1
  | .Unspecified => 12

/-- Spec-side sentiment rule: derived solely from the budget-utilization
ratio `spent / totalBudget` — positive below 0.7, warning above 0.9,
neutral otherwise (JavaScript comparison semantics on the ratio). -/
def specSentiment (budgetStatus : BudgetStatus) : Sentiment :=
  if (jsDiv budgetStatus.spent budgetStatus.totalBudget).ltR (7 / 10) then .positive
  else if (jsDiv budgetStatus.spent budgetStatus.totalBudget).gtR (9 / 10) then .warning
  else .neutral

/-- Spec-side: the calendar month before `now`, as a (year, month) pair. -/
def prevCalendarMonth (now : Date) : Nat × Nat :=
  if now.month = 1 then (now.year - 1, 12) else (now.year, now.month - 1)

/-! ## Theorems -/

/-- With a positive limit the percentage test against 100 is exactly the
`spent >= limit` comparison. -/
theorem budgetPercentage_geR_100 (b : BudgetModel) (h : 0 < b.monthly_limit) :
    (budgetPercentage b).geR 100 = decide (b.monthly_limit ≤ b.current_spent) := by
  have hb : b.monthly_limit ≠ 0 := ne_of_gt h
  simp only [budgetPercentage, jsDiv, if_neg hb, JSNum.mulConst, JSNum.geR]
  rw [decide_eq_decide]
  rw [div_mul_eq_mul_div, le_div_iff₀ h]
  constructor <;> intro h2 <;> nlinarith

/-- C1 (counterexample): for the budget with limit 100, spent 100 and alert
threshold 80 the code returns "warning", not the "exceeded" the claim
requires once spent >= limit. -/
theorem claim_C1_counterexample :
    (0 : Rat) < (BudgetModel.mk "Food" 100 100 80 true).monthly_limit
    ∧ (BudgetModel.mk "Food" 100 100 80 true).monthly_limit
        ≤ (BudgetModel.mk "Food" 100 100 80 true).current_spent
    ∧ getBudgetStatus (BudgetModel.mk "Food" 100 100 80 true) ≠ "exceeded"
    ∧ getBudgetStatus (BudgetModel.mk "Food" 100 100 80 true) = "warning" := by
  have hw : getBudgetStatus (BudgetModel.mk "Food" 100 100 80 true) = "warning" := by
    norm_num [getBudgetStatus, budgetPercentage, jsDiv, JSNum.mulConst, JSNum.geR]
  exact ⟨by norm_num, by norm_num, by rw [hw]; decide, hw⟩

/-- C1 (amended): for every budget with positive monthly limit the status is
"warning" when utilization% >= alert threshold, otherwise "exceeded" when
spent >= limit (reachable only for thresholds above 100), otherwise "ok" —
the warning test runs first. -/
theorem claim_C1_amended (b : BudgetModel) (h : 0 < b.monthly_limit) :
    getBudgetStatus b =
      if (budgetPercentage b).geR b.alert_threshold then "warning"
      else if b.monthly_limit ≤ b.current_spent then "exceeded"
      else "ok" := by
  unfold getBudgetStatus
  rw [budgetPercentage_geR_100 b h]
  by_cases hw : (budgetPercentage b).geR b.alert_threshold
  · simp [hw]
  · by_cases he : b.monthly_limit ≤ b.current_spent
    · simp [hw, he]
    · simp [hw, he]

/-- C1 (witness): the amended statement applied to a concrete in-budget
record. -/
theorem claim_C1_witness :
    getBudgetStatus (BudgetModel.mk "Transport" 200 90 80 true) =
      if (budgetPercentage (BudgetModel.mk "Transport" 200 90 80 true)).geR
          (BudgetModel.mk "Transport" 200 90 80 true).alert_threshold then "warning"
      else if (BudgetModel.mk "Transport" 200 90 80 true).monthly_limit
          ≤ (BudgetModel.mk "Transport" 200 90 80 true).current_spent then "exceeded"
      else "ok" :=
  claim_C1_amended (BudgetModel.mk "Transport" 200 90 80 true) (by norm_num)

/-- C2 (counterexample): with a zero monthly limit and positive spent the
computed utilization is Infinity, not the 0 the claim requires. -/
theorem claim_C2_counterexample :
    (BudgetModel.mk "Food" 0 50 80 true).monthly_limit = 0
    ∧ budgetPercentage (BudgetModel.mk "Food" 0 50 80 true) ≠ JSNum.num 0
    ∧ budgetPercentage (BudgetModel.mk "Food" 0 50 80 true) = JSNum.posInf := by
  refine ⟨rfl, ?_, ?_⟩ <;> decide

/-- C2 (amended): the status calculator is total and never throws — every
budget is classified "warning", "exceeded" or "ok" — but a zero monthly
limit yields an Infinity (positive spent, classified "warning") or NaN
(zero spent, classified "ok") utilization rather than 0. -/
theorem claim_C2_amended (b : BudgetModel) :
    (getBudgetStatus b = "warning" ∨ getBudgetStatus b = "exceeded" ∨ getBudgetStatus b = "ok")
    ∧ (b.monthly_limit = 0 → 0 < b.current_spent →
        budgetPercentage b = JSNum.posInf ∧ getBudgetStatus b = "warning")
    ∧ (b.monthly_limit = 0 → b.current_spent = 0 →
        budgetPercentage b = JSNum.nan ∧ getBudgetStatus b = "ok") := by
  refine ⟨?_, ?_, ?_⟩
  · unfold getBudgetStatus
    split_ifs <;> simp
  · intro h0 hs
    have hp : budgetPercentage b = JSNum.posInf := by
      simp [budgetPercentage, jsDiv, h0, hs, JSNum.mulConst]
    refine ⟨hp, ?_⟩
    simp [getBudgetStatus, hp, JSNum.geR]
  · intro h0 hs
    have hp : budgetPercentage b = JSNum.nan := by
      simp [budgetPercentage, jsDiv, h0, hs, JSNum.mulConst]
    refine ⟨hp, ?_⟩
    simp [getBudgetStatus, hp, JSNum.geR]

/-- C2 (witness): the amended statement applied to a zero-limit budget with
positive spending. -/
theorem claim_C2_witness :
    budgetPercentage (BudgetModel.mk "Utilities" 0 50 80 true) = JSNum.posInf
    ∧ getBudgetStatus (BudgetModel.mk "Utilities" 0 50 80 true) = "warning" :=
  (claim_C2_amended (BudgetModel.mk "Utilities" 0 50 80 true)).2.1 rfl (by norm_num)

/-- C4 (confirmed): period-over-period change% is
`(current - previous) / previous * 100`, with previous = 0 mapped to 100
for positive current and 0 for zero current. -/
theorem claim_C4 (currentTotal previousTotal : Rat) :
    (previousTotal ≠ 0 →
      changePercentage currentTotal previousTotal =
        (currentTotal - previousTotal) / previousTotal * 100)
    ∧ (previousTotal = 0 → 0 < currentTotal →
        changePercentage currentTotal previousTotal = 100)
    ∧ (previousTotal = 0 → currentTotal = 0 →
        changePercentage currentTotal previousTotal = 0) := by
  refine ⟨fun h => ?_, fun h hc => ?_, fun h hc => ?_⟩
  · simp [changePercentage, h]
  · simp [changePercentage, h, hc]
  · simp [changePercentage, h, hc]

/-- C4 (witness): the spec's two zero-previous cases and a generic one. -/
theorem claim_C4_witness :
    changePercentage 50 0 = 100 ∧ changePercentage 0 0 = 0
    ∧ changePercentage 150 100 = ((150 : Rat) - 100) / 100 * 100 :=
  ⟨(claim_C4 50 0).2.1 rfl (by norm_num), (claim_C4 0 0).2.2 rfl rfl,
   (claim_C4 150 100).1 (by norm_num)⟩

/-- C9 (confirmed): with a positive target the displayed progress is
`min(current / target * 100, 100)` — 0/100 gives 0, 100/100 gives 100,
150/100 clamps to 100 — and after a contribution the completed flag is
true exactly when the new amount reaches the target. -/
theorem claim_C9 (goal : SavingsGoalModel) (c : Rat) (ht : 0 < goal.target_amount) :
    getProgress goal = JSNum.num (min (goal.current_amount / goal.target_amount * 100) 100)
    ∧ ((applyContribution goal c).isCompleted = true ↔
        goal.target_amount ≤ goal.current_amount + c)
    ∧ getProgress (SavingsGoalModel.mk "G" 100 0 2 false) = JSNum.num 0
    ∧ getProgress (SavingsGoalModel.mk "G" 100 100 2 false) = JSNum.num 100
    ∧ getProgress (SavingsGoalModel.mk "G" 100 150 2 false) = JSNum.num 100 := by
  have htne : goal.target_amount ≠ 0 := ne_of_gt ht
  refine ⟨?_, ?_, ?_, ?_, ?_⟩
  · simp [getProgress, jsDiv, htne, JSNum.mulConst, JSNum.minConst]
  · simp [applyContribution]
  · norm_num [getProgress, jsDiv, JSNum.mulConst, JSNum.minConst, min_eq_left]
  · norm_num [getProgress, jsDiv, JSNum.mulConst, JSNum.minConst, min_self]
  · norm_num [getProgress, jsDiv, JSNum.mulConst, JSNum.minConst, min_eq_right]

/-- C9 (witness): the clamped instance, with a completing contribution. -/
theorem claim_C9_witness :
    getProgress (SavingsGoalModel.mk "Vacation" 100 150 2 false) =
      JSNum.num (min ((150 : Rat) / 100 * 100) 100)
    ∧ ((applyContribution (SavingsGoalModel.mk "Vacation" 100 150 2 false) 50).isCompleted = true ↔
        (100 : Rat) ≤ 150 + 50)
    ∧ getProgress (SavingsGoalModel.mk "G" 100 0 2 false) = JSNum.num 0
    ∧ getProgress (SavingsGoalModel.mk "G" 100 100 2 false) = JSNum.num 100
    ∧ getProgress (SavingsGoalModel.mk "G" 100 150 2 false) = JSNum.num 100 :=
  claim_C9 (SavingsGoalModel.mk "Vacation" 100 150 2 false) 50 (by norm_num)

/-- C10 (confirmed): the yearly total sums `amount * multiplier` (weekly 52,
monthly 12, yearly 1, anything else 12) over exactly the active
subscriptions, the monthly total sums yearly/12, a 10-dollar weekly
subscription costs 520 a year and 130/3 (displayed 43.33) a month, and an
inactive subscription contributes nothing. -/
theorem claim_C10 (sub : SubscriptionModel) (subs : List SubscriptionModel) :
    getYearlyCost sub.amount sub.billing_cycle
      = sub.amount * specCycleMultiplier sub.billing_cycle
    ∧ getTotalYearlySpend (sub :: subs) =
        (if sub.is_active then sub.amount * specCycleMultiplier sub.billing_cycle else 0)
          + getTotalYearlySpend subs
    ∧ getTotalMonthlySpend (sub :: subs) =
        (if sub.is_active then sub.amount * specCycleMultiplier sub.billing_cycle / 12 else 0)
          + getTotalMonthlySpend subs
    ∧ getYearlyCost 10 .Weekly = 520
    ∧ getTotalMonthlySpend [SubscriptionModel.mk "Music" 10 .Weekly true "music"] = 130 / 3
    ∧ round ((130 : Rat) / 3 * 100) = (4333 : ℤ)
    ∧ getTotalYearlySpend [SubscriptionModel.mk "News" 10 .Weekly false "news"] = 0 := by
  have hcost : getYearlyCost sub.amount sub.billing_cycle
      = sub.amount * specCycleMultiplier sub.billing_cycle := by
    rcases hcy : sub.billing_cycle <;>
      simp [getYearlyCost, BILLING_CYCLES, specCycleMultiplier, List.find?]
  have hyearly : getYearlyCost 10 .Weekly = (520 : Rat) := by
    norm_num [getYearlyCost, BILLING_CYCLES, List.find?]
  have hmonthly :
      getTotalMonthlySpend [SubscriptionModel.mk "Music" 10 .Weekly true "music"] = 130 / 3 := by
    norm_num [getTotalMonthlySpend, List.filter, hyearly]
  refine ⟨hcost, ?_, ?_, hyearly, hmonthly, ?_, by decide⟩
  · by_cases ha : sub.is_active <;>
      simp [getTotalYearlySpend, List.filter_cons, ha, hcost]
  · by_cases ha : sub.is_active <;>
      simp [getTotalMonthlySpend, List.filter_cons, ha, hcost]
  · rw [round_eq]
    rw [show ((130 : Rat) / 3 * 100 + 1 / 2) = 26003 / 6 by norm_num]
    rw [Int.floor_eq_iff]
    norm_num

/-- With a positive target the milestone search of `applyContribution` is
`find?` of the rational straddle predicate over `MILESTONES`. -/
theorem applyContribution_milestone (goal : SavingsGoalModel) (c : Rat)
    (ht : 0 < goal.target_amount) :
    (applyContribution goal c).milestone =
      MILESTONES.find? (fun m =>
        decide (goal.current_amount / goal.target_amount * 100 < m.percentage) &&
        decide (m.percentage ≤ (goal.current_amount + c) / goal.target_amount * 100)) := by
  have htne : goal.target_amount ≠ 0 := ne_of_gt ht
  simp [applyContribution, jsDiv, htne, JSNum.mulConst, JSNum.ltR, JSNum.geR]

/-- C3 (confirmed): for a goal with positive target and a positive
contribution, the emitted milestone is exactly the lowest threshold in
{25, 50, 75, 100} with old% < threshold <= new% (with its canned label and
message, since it is returned from `MILESTONES`), and nothing is emitted
when no threshold is straddled. -/
theorem claim_C3 (goal : SavingsGoalModel) (c : Rat)
    (ht : 0 < goal.target_amount) (_hc : 0 < c) :
    ((applyContribution goal c).milestone = none ↔
      ∀ m ∈ MILESTONES, ¬(goal.current_amount / goal.target_amount * 100 < m.percentage ∧
        m.percentage ≤ (goal.current_amount + c) / goal.target_amount * 100))
    ∧ ∀ m, (applyContribution goal c).milestone = some m →
        m ∈ MILESTONES
        ∧ goal.current_amount / goal.target_amount * 100 < m.percentage
        ∧ m.percentage ≤ (goal.current_amount + c) / goal.target_amount * 100
        ∧ ∀ m' ∈ MILESTONES,
            goal.current_amount / goal.target_amount * 100 < m'.percentage ∧
            m'.percentage ≤ (goal.current_amount + c) / goal.target_amount * 100 →
            m.percentage ≤ m'.percentage := by
  rw [and_comm]
  set oldP := goal.current_amount / goal.target_amount * 100 with holdP
  set newP := (goal.current_amount + c) / goal.target_amount * 100 with hnewP
  have hms := applyContribution_milestone goal c ht
  rw [← holdP, ← hnewP] at hms
  set p : Milestone → Bool := fun m =>
    decide (oldP < m.percentage) && decide (m.percentage ≤ newP) with hp
  have hpt : ∀ m : Milestone, p m = true ↔ (oldP < m.percentage ∧ m.percentage ≤ newP) := by
    intro m; simp [hp]
  by_cases h25 : oldP < 25 ∧ (25 : Rat) ≤ newP
  · have hfind : MILESTONES.find? p = some ⟨25, "25% Complete",
        "Great start! You're building momentum!"⟩ := by
      rw [MILESTONES]
      exact List.find?_cons_of_pos _ ((hpt _).mpr h25)
    rw [hms, hfind]
    constructor
    · intro m hm
      obtain rfl : (⟨25, "25% Complete",
          "Great start! You're building momentum!"⟩ : Milestone) = m := by
        simpa using hm
      refine ⟨by simp [MILESTONES], h25.1, h25.2, ?_⟩
      intro m' hm' hs'
      simp only [MILESTONES, List.mem_cons, List.mem_singleton] at hm'
      rcases hm' with rfl | rfl | rfl | rfl | h
      · norm_num
      · norm_num
      · norm_num
      · norm_num
      · simp at h
    · constructor
      · intro h; simp at h
      · intro hall
        exact absurd h25 (hall (⟨25, "25% Complete", "Great start! You're building momentum!"⟩ : Milestone) (by simp [MILESTONES]))
  · by_cases h50 : oldP < 50 ∧ (50 : Rat) ≤ newP
    · have hfind : MILESTONES.find? p = some ⟨50, "Halfway There!",
          "Amazing progress! Keep it going!"⟩ := by
        rw [MILESTONES]
        rw [List.find?_cons_of_neg _ (by simp [hpt, h25])]
        exact List.find?_cons_of_pos _ ((hpt _).mpr h50)
      rw [hms, hfind]
      constructor
      · intro m hm
        obtain rfl : (⟨50, "Halfway There!",
            "Amazing progress! Keep it going!"⟩ : Milestone) = m := by
          simpa using hm
        refine ⟨by simp [MILESTONES], h50.1, h50.2, ?_⟩
        intro m' hm' hs'
        simp only [MILESTONES, List.mem_cons, List.mem_singleton] at hm'
        rcases hm' with rfl | rfl | rfl | rfl | h
        · exact absurd hs' h25
        · norm_num
        · norm_num
        · norm_num
        · simp at h
      · constructor
        · intro h; simp at h
        · intro hall
          exact absurd h50 (hall (⟨50, "Halfway There!", "Amazing progress! Keep it going!"⟩ : Milestone) (by simp [MILESTONES]))
    · by_cases h75 : oldP < 75 ∧ (75 : Rat) ≤ newP
      · have hfind : MILESTONES.find? p = some ⟨75, "75% Complete",
            "You're so close! Don't give up now!"⟩ := by
          rw [MILESTONES]
          rw [List.find?_cons_of_neg _ (by simp [hpt, h25])]
          rw [List.find?_cons_of_neg _ (by simp [hpt, h50])]
          exact List.find?_cons_of_pos _ ((hpt _).mpr h75)
        rw [hms, hfind]
        constructor
        · intro m hm
          obtain rfl : (⟨75, "75% Complete",
              "You're so close! Don't give up now!"⟩ : Milestone) = m := by
            simpa using hm
          refine ⟨by simp [MILESTONES], h75.1, h75.2, ?_⟩
          intro m' hm' hs'
          simp only [MILESTONES, List.mem_cons, List.mem_singleton] at hm'
          rcases hm' with rfl | rfl | rfl | rfl | h
          · exact absurd hs' h25
          · exact absurd hs' h50
          · norm_num
          · norm_num
          · simp at h
        · constructor
          · intro h; simp at h
          · intro hall
            exact absurd h75 (hall (⟨75, "75% Complete", "You're so close! Don't give up now!"⟩ : Milestone) (by simp [MILESTONES]))
      · by_cases h100 : oldP < 100 ∧ (100 : Rat) ≤ newP
        · have hfind : MILESTONES.find? p = some ⟨100, "Goal Achieved!",
              "Congratulations! You did it!"⟩ := by
            rw [MILESTONES]
            rw [List.find?_cons_of_neg _ (by simp [hpt, h25])]
            rw [List.find?_cons_of_neg _ (by simp [hpt, h50])]
            rw [List.find?_cons_of_neg _ (by simp [hpt, h75])]
            exact List.find?_cons_of_pos _ ((hpt _).mpr h100)
          rw [hms, hfind]
          constructor
          · intro m hm
            obtain rfl : (⟨100, "Goal Achieved!",
                "Congratulations! You did it!"⟩ : Milestone) = m := by
              simpa using hm
            refine ⟨by simp [MILESTONES], h100.1, h100.2, ?_⟩
            intro m' hm' hs'
            simp only [MILESTONES, List.mem_cons, List.mem_singleton] at hm'
            rcases hm' with rfl | rfl | rfl | rfl | h
            · exact absurd hs' h25
            · exact absurd hs' h50
            · exact absurd hs' h75
            · norm_num
            · simp at h
          · constructor
            · intro h; simp at h
            · intro hall
              exact absurd h100 (hall (⟨100, "Goal Achieved!", "Congratulations! You did it!"⟩ : Milestone) (by simp [MILESTONES]))
        · have hfind : MILESTONES.find? p = none := by
            rw [MILESTONES]
            rw [List.find?_cons_of_neg _ (by simp [hpt, h25])]
            rw [List.find?_cons_of_neg _ (by simp [hpt, h50])]
            rw [List.find?_cons_of_neg _ (by simp [hpt, h75])]
            rw [List.find?_cons_of_neg _ (by simp [hpt, h100])]
            rfl
          rw [hms, hfind]
          constructor
          · intro m hm; simp at hm
          · constructor
            · intro _ m hm
              simp only [MILESTONES, List.mem_cons, List.mem_singleton] at hm
              rcases hm with rfl | rfl | rfl | rfl | h
              · exact h25
              · exact h50
              · exact h75
              · exact h100
              · simp at h
            · intro _; rfl

/-- C3 (witness): the spec's 10 + 80 on a target of 100 crosses 25, 50 and
75 and the engine reports only the 25% milestone. -/
theorem claim_C3_witness :
    ((applyContribution (SavingsGoalModel.mk "Trip" 100 10 2 false) 80).milestone = none ↔
      ∀ m ∈ MILESTONES, ¬((10 : Rat) / 100 * 100 < m.percentage ∧
        m.percentage ≤ ((10 : Rat) + 80) / 100 * 100))
    ∧ ∀ m, (applyContribution (SavingsGoalModel.mk "Trip" 100 10 2 false) 80).milestone = some m →
        m ∈ MILESTONES
        ∧ (10 : Rat) / 100 * 100 < m.percentage
        ∧ m.percentage ≤ ((10 : Rat) + 80) / 100 * 100
        ∧ ∀ m' ∈ MILESTONES,
            (10 : Rat) / 100 * 100 < m'.percentage ∧
            m'.percentage ≤ ((10 : Rat) + 80) / 100 * 100 →
            m.percentage ≤ m'.percentage :=
  claim_C3 (SavingsGoalModel.mk "Trip" 100 10 2 false) 80 (by norm_num) (by norm_num)

/-- C8 (confirmed): the sentiment of a generated daily insight depends only
on the budget status — it equals the spec's ratio rule (< 0.7 positive,
> 0.9 warning, else neutral) and is unchanged across different AI response
texts. -/
theorem claim_C8 (budgetStatus : BudgetStatus) (content1 content2 : String)
    (tokens1 tokens2 : Option Nat) (model1 model2 : String) :
    (parseDailyInsightContent budgetStatus content1 tokens1 model1).sentiment =
      (parseDailyInsightContent budgetStatus content2 tokens2 model2).sentiment
    ∧ (parseDailyInsightContent budgetStatus content1 tokens1 model1).sentiment =
        specSentiment budgetStatus := by
  constructor <;> simp [parseDailyInsightContent, specSentiment]

/-- C5 (counterexample): a daily-insight input with one transaction and a
present budget-status object whose total budget is 0 passes validation and
reaches the external call — a zero budget does not raise. -/
theorem claim_C5_counterexample :
    (GenerateDailyInsightInput.mk
        [Transaction.mk "t1" 20 "Food" "Lunch" "2025-10-10" none]
        (some (BudgetStatus.mk 0 0 0 []))
        (some (SpendingPattern.mk 10 []))).transactions ≠ []
    ∧ (GenerateDailyInsightInput.mk
        [Transaction.mk "t1" 20 "Food" "Lunch" "2025-10-10" none]
        (some (BudgetStatus.mk 0 0 0 []))
        (some (SpendingPattern.mk 10 []))).budgetStatus = some (BudgetStatus.mk 0 0 0 [])
    ∧ (BudgetStatus.mk 0 0 0 []).totalBudget = 0
    ∧ ∃ r, buildDailyInsightRequest (GenerateDailyInsightInput.mk
        [Transaction.mk "t1" 20 "Food" "Lunch" "2025-10-10" none]
        (some (BudgetStatus.mk 0 0 0 []))
        (some (SpendingPattern.mk 10 []))) = Except.ok r := by
  refine ⟨by simp, rfl, rfl, ⟨_, rfl⟩⟩

/-- C5 (amended): each builder raises its own descriptive validation error
before any external request — both on an empty transaction list, the
daily-insight builder on a missing budget-status object, and the savings
builder on zero or negative monthly income; a present budget status with
zero total budget is not rejected. -/
theorem claim_C5_amended (d : GenerateDailyInsightInput)
    (s : GenerateSavingsRecommendationInput) :
    (d.transactions = [] → buildDailyInsightRequest d =
      .error "At least one transaction is required to generate insights")
    ∧ (d.transactions ≠ [] → d.budgetStatus = none → buildDailyInsightRequest d =
      .error "Budget status is required to generate insights")
    ∧ (s.savingsGoal ≠ none → s.transactions = [] → buildSavingsRecommendationRequest s =
      .error "Transaction history is required to generate recommendations")
    ∧ (s.savingsGoal ≠ none → s.transactions ≠ [] → s.monthlyIncome ≤ 0 →
      buildSavingsRecommendationRequest s =
        .error "Valid monthly income is required") := by
  refine ⟨?_, ?_, ?_, ?_⟩
  · intro h
    simp [buildDailyInsightRequest, h]
  · intro h hb
    have hne : ¬d.transactions.isEmpty := by simpa [List.isEmpty_iff] using h
    simp [buildDailyInsightRequest, hne, hb]
  · intro hg h
    rcases Option.ne_none_iff_exists'.mp hg with ⟨g, hgeq⟩
    simp [buildSavingsRecommendationRequest, hgeq, h]
  · intro hg h hinc
    rcases Option.ne_none_iff_exists'.mp hg with ⟨g, hgeq⟩
    have hne : ¬s.transactions.isEmpty := by simpa [List.isEmpty_iff] using h
    simp [buildSavingsRecommendationRequest, hgeq, hne, hinc]

/-- C5 (witness): the amended statement applied to an empty-transaction
daily input and a zero-income savings input. -/
theorem claim_C5_witness :
    buildDailyInsightRequest (GenerateDailyInsightInput.mk [] none none) =
      Except.error "At least one transaction is required to generate insights"
    ∧ buildSavingsRecommendationRequest (GenerateSavingsRecommendationInput.mk
        (some (SavingsGoal.mk "g1" "Emergency Fund" 1000 100 "2026-12-31" "high"))
        [Transaction.mk "t1" 20 "Food" "Lunch" "2025-10-10" none]
        0 (some (SpendingPattern.mk 10 [])) none) =
      Except.error "Valid monthly income is required" :=
  ⟨(claim_C5_amended (GenerateDailyInsightInput.mk [] none none)
      (GenerateSavingsRecommendationInput.mk none [] 0 none none)).1 rfl,
   (claim_C5_amended (GenerateDailyInsightInput.mk [] none none)
      (GenerateSavingsRecommendationInput.mk
        (some (SavingsGoal.mk "g1" "Emergency Fund" 1000 100 "2026-12-31" "high"))
        [Transaction.mk "t1" 20 "Food" "Lunch" "2025-10-10" none]
        0 (some (SpendingPattern.mk 10 [])) none)).2.2.2
      (by simp) (by simp) (by norm_num)⟩

/-- Every month has at least one day. -/
theorem daysInMonth_pos (y m : Nat) : 1 ≤ daysInMonth y m := by
  unfold daysInMonth
  split_ifs <;> norm_num

/-- Months accumulate one month at a time. -/
theorem daysBeforeMonth_succ (y m : Nat) (h : 1 ≤ m) :
    daysBeforeMonth y (m + 1) = daysBeforeMonth y m + daysInMonth y m := by
  have hm : m ≠ 0 := by omega
  simp [daysBeforeMonth, hm]

set_option maxHeartbeats 2000000 in
/-- Consecutive years differ by 365 days plus the leap day. -/
theorem daysBeforeYear_succ (y : Nat) (h : 1 ≤ y) :
    daysBeforeYear (y + 1) = daysBeforeYear y + 365 + (if isLeapYear y then 1 else 0) := by
  have hleap : (if isLeapYear y then (1 : Nat) else 0)
      = (if (y % 4 = 0 ∧ ¬ y % 100 = 0) ∨ y % 400 = 0 then 1 else 0) := by
    unfold isLeapYear
    by_cases h4 : y % 4 = 0 <;> by_cases h100 : y % 100 = 0 <;> by_cases h400 : y % 400 = 0 <;>
      simp [h4, h100, h400]
  rw [hleap]
  unfold daysBeforeYear
  split_ifs with hcond <;> omega

/-- The twelve months total 365 days plus the leap day. -/
theorem daysBeforeMonth_twelve (y : Nat) :
    daysBeforeMonth y 12 + 31 = 365 + (if isLeapYear y then 1 else 0) := by
  cases hl : isLeapYear y <;> simp [daysBeforeMonth, daysInMonth, hl]

/-- A January 1st with day number at least 2 lies in year 2 or later. -/
theorem year_two_of_rataDie (d : Date) (hm : d.month = 1) (hd : d.day = 1)
    (h2 : 2 ≤ rataDie d) : 2 ≤ d.year := by
  by_contra h
  have h1 : d.year ≤ 1 := by omega
  have hr : rataDie d ≤ 1 := by
    rw [rataDie, hm, hd]
    have hz : daysBeforeYear d.year = 0 := by
      unfold daysBeforeYear
      have hz1 : d.year - 1 = 0 := by omega
      rw [hz1]
    rw [hz]
    norm_num [daysBeforeMonth]
  omega

/-- `predDay` really is the previous day: it decrements the day number. -/
theorem rataDie_predDay (d : Date) (hv : d.Valid) (h2 : 2 ≤ rataDie d) :
    rataDie (predDay d) + 1 = rataDie d := by
  obtain ⟨hy, hm1, hm2, hd1, hd2⟩ := hv
  unfold predDay
  by_cases hday : 1 < d.day
  · simp only [hday, if_true]
    unfold rataDie
    simp only
    omega
  · have hdeq : d.day = 1 := by omega
    by_cases hmon : 1 < d.month
    · simp only [hday, hmon, if_false, if_true]
      unfold rataDie
      simp only
      have hstep := daysBeforeMonth_succ d.year (d.month - 1) (by omega)
      rw [show d.month - 1 + 1 = d.month from by omega] at hstep
      omega
    · have hmeq : d.month = 1 := by omega
      have hy2 : 2 ≤ d.year := year_two_of_rataDie d hmeq hdeq h2
      simp only [hday, hmon, if_false]
      unfold rataDie
      simp only
      have hstep := daysBeforeYear_succ (d.year - 1) (by omega)
      rw [show d.year - 1 + 1 = d.year from by omega] at hstep
      have h12 := daysBeforeMonth_twelve (d.year - 1)
      have hb1 : daysBeforeMonth d.year 1 = 0 := by simp [daysBeforeMonth]
      rw [hmeq, hdeq, hb1]
      rcases hl : isLeapYear (d.year - 1) <;> rw [hl] at hstep h12 <;>
        simp at hstep h12 <;> omega

/-- `predDay` stays inside the calendar. -/
theorem predDay_valid (d : Date) (hv : d.Valid) (h2 : 2 ≤ rataDie d) :
    (predDay d).Valid := by
  obtain ⟨hy, hm1, hm2, hd1, hd2⟩ := hv
  unfold predDay
  by_cases hday : 1 < d.day
  · simp only [hday, if_true]
    unfold Date.Valid
    simp only
    exact ⟨hy, hm1, hm2, by omega, by omega⟩
  · have hdeq : d.day = 1 := by omega
    by_cases hmon : 1 < d.month
    · simp only [hday, hmon, if_false, if_true]
      unfold Date.Valid
      simp only
      exact ⟨hy, by omega, by omega, daysInMonth_pos _ _, le_refl _⟩
    · have hmeq : d.month = 1 := by omega
      have hy2 : 2 ≤ d.year := year_two_of_rataDie d hmeq hdeq h2
      simp only [hday, hmon, if_false]
      unfold Date.Valid
      simp only
      refine ⟨by omega, by norm_num, by norm_num, by norm_num, ?_⟩
      simp [daysInMonth]

/-- Stepping back `n` days (while staying after day 1) subtracts `n` from
the day number and stays inside the calendar. -/
theorem subDays_spec (d : Date) (hv : d.Valid) :
    ∀ n, n < rataDie d → (subDays d n).Valid ∧ rataDie (subDays d n) + n = rataDie d := by
  intro n
  induction n with
  | zero => intro _; exact ⟨hv, rfl⟩
  | succ n ih =>
    intro h
    obtain ⟨hval, hrd⟩ := ih (by omega)
    have h2 : 2 ≤ rataDie (subDays d n) := by omega
    have hpred := rataDie_predDay _ hval h2
    exact ⟨predDay_valid _ hval h2,
      by show rataDie (predDay (subDays d n)) + (n + 1) = _; omega⟩

/-- Any date of year 2 or later has day number at least 366. -/
theorem le_rataDie_of_year_two (d : Date) (hy : 2 ≤ d.year) (hd : 1 ≤ d.day) :
    366 ≤ rataDie d := by
  unfold rataDie daysBeforeYear
  have h1 : (d.year - 1) / 100 ≤ (d.year - 1) / 4 :=
    Nat.div_le_div_left (by norm_num) (by norm_num)
  have h2 : 365 ≤ 365 * (d.year - 1) := by
    have h3 : 1 ≤ d.year - 1 := by omega
    calc (365 : Nat) = 365 * 1 := by norm_num
    _ ≤ 365 * (d.year - 1) := Nat.mul_le_mul_left _ h3
  omega

/-- C7 (confirmed): the previous window is computed asymmetrically — for
monthly it is the calendar month before `now` itself, while for weekly and
quarterly the end is the day before the current window start (one day
earlier in day numbers) with the start re-derived at that granularity —
and both transaction filters partition by inclusive comparison against the
window bounds. -/
theorem claim_C7 (now : Date) (transactions : List TransactionModel)
    (tx : TransactionModel) (timeFilter : TimeFilter)
    (hv : now.Valid) (hy : 2 ≤ now.year) :
    (previousPeriodRange .monthly now =
      ⟨⟨(prevCalendarMonth now).1, (prevCalendarMonth now).2, 1⟩,
       ⟨(prevCalendarMonth now).1, (prevCalendarMonth now).2,
        daysInMonth (prevCalendarMonth now).1 (prevCalendarMonth now).2⟩⟩)
    ∧ (previousPeriodRange .weekly now).endDate = predDay (dateRange .weekly now).start
    ∧ (previousPeriodRange .weekly now).start =
        startOfWeek (previousPeriodRange .weekly now).endDate
    ∧ (previousPeriodRange .quarterly now).endDate = predDay (dateRange .quarterly now).start
    ∧ (previousPeriodRange .quarterly now).start =
        startOfQuarter (previousPeriodRange .quarterly now).endDate
    ∧ (tx ∈ filteredTransactions transactions timeFilter now ↔
        tx ∈ transactions
        ∧ rataDie (dateRange timeFilter now).start ≤ rataDie tx.transaction_time
        ∧ rataDie tx.transaction_time ≤ rataDie (dateRange timeFilter now).endDate)
    ∧ (tx ∈ previousPeriodTransactions transactions timeFilter now ↔
        tx ∈ transactions
        ∧ rataDie (previousPeriodRange timeFilter now).start ≤ rataDie tx.transaction_time
        ∧ rataDie tx.transaction_time ≤ rataDie (previousPeriodRange timeFilter now).endDate)
    ∧ rataDie (previousPeriodRange .weekly now).endDate + 1
        = rataDie (dateRange .weekly now).start
    ∧ rataDie (previousPeriodRange .quarterly now).endDate + 1
        = rataDie (dateRange .quarterly now).start := by
  have h366 : 366 ≤ rataDie now := le_rataDie_of_year_two now hy hv.2.2.2.1
  refine ⟨?_, rfl, rfl, rfl, rfl, ?_, ?_, ?_, ?_⟩
  · by_cases hm : now.month = 1 <;>
      simp [previousPeriodRange, subMonths1, startOfMonth, endOfMonth, prevCalendarMonth, hm]
  · simp [filteredTransactions, List.mem_filter, inRange, dateLE,
      Bool.and_eq_true, decide_eq_true_eq, and_assoc]
  · simp [previousPeriodTransactions, List.mem_filter, inRange, dateLE,
      Bool.and_eq_true, decide_eq_true_eq, and_assoc]
  · show rataDie (predDay (startOfWeek now)) + 1 = rataDie (startOfWeek now)
    have hdlt : dayOfWeek now < rataDie now := by
      have hd7 : dayOfWeek now < 7 := Nat.mod_lt _ (by norm_num)
      omega
    obtain ⟨hswv, hswr⟩ := subDays_spec now hv (dayOfWeek now) hdlt
    have h2 : 2 ≤ rataDie (subDays now (dayOfWeek now)) := by
      have hd7 : dayOfWeek now < 7 := Nat.mod_lt _ (by norm_num)
      omega
    exact rataDie_predDay _ hswv h2
  · show rataDie (predDay (startOfQuarter now)) + 1 = rataDie (startOfQuarter now)
    have hqv : (startOfQuarter now).Valid := by
      obtain ⟨hy1, hm1, hm2, hd1, hd2⟩ := hv
      unfold startOfQuarter Date.Valid quarterStartMonth
      simp only
      exact ⟨hy1, by omega, by omega, le_refl _, daysInMonth_pos _ _⟩
    have h2 : 2 ≤ rataDie (startOfQuarter now) := by
      have := le_rataDie_of_year_two (startOfQuarter now)
        (by simpa [startOfQuarter] using hy) (by simp [startOfQuarter])
      omega
    exact rataDie_predDay _ hqv h2

/-- C7 (witness): the window statement applied at the valid reference date
2025-10-11 with one September transaction under the monthly filter. -/
theorem claim_C7_witness :
    (previousPeriodRange .monthly ⟨2025, 10, 11⟩ =
      ⟨⟨(prevCalendarMonth ⟨2025, 10, 11⟩).1, (prevCalendarMonth ⟨2025, 10, 11⟩).2, 1⟩,
       ⟨(prevCalendarMonth ⟨2025, 10, 11⟩).1, (prevCalendarMonth ⟨2025, 10, 11⟩).2,
        daysInMonth (prevCalendarMonth ⟨2025, 10, 11⟩).1 (prevCalendarMonth ⟨2025, 10, 11⟩).2⟩⟩)
    ∧ (previousPeriodRange .weekly ⟨2025, 10, 11⟩).endDate
        = predDay (dateRange .weekly ⟨2025, 10, 11⟩).start
    ∧ (previousPeriodRange .weekly ⟨2025, 10, 11⟩).start
        = startOfWeek (previousPeriodRange .weekly ⟨2025, 10, 11⟩).endDate
    ∧ (previousPeriodRange .quarterly ⟨2025, 10, 11⟩).endDate
        = predDay (dateRange .quarterly ⟨2025, 10, 11⟩).start
    ∧ (previousPeriodRange .quarterly ⟨2025, 10, 11⟩).start
        = startOfQuarter (previousPeriodRange .quarterly ⟨2025, 10, 11⟩).endDate
    ∧ (TransactionModel.mk 20 1 ⟨2025, 9, 15⟩ ∈
        filteredTransactions [TransactionModel.mk 20 1 ⟨2025, 9, 15⟩] .monthly ⟨2025, 10, 11⟩ ↔
        TransactionModel.mk 20 1 ⟨2025, 9, 15⟩ ∈ [TransactionModel.mk 20 1 ⟨2025, 9, 15⟩]
        ∧ rataDie (dateRange .monthly ⟨2025, 10, 11⟩).start
            ≤ rataDie (TransactionModel.mk 20 1 ⟨2025, 9, 15⟩).transaction_time
        ∧ rataDie (TransactionModel.mk 20 1 ⟨2025, 9, 15⟩).transaction_time
            ≤ rataDie (dateRange .monthly ⟨2025, 10, 11⟩).endDate)
    ∧ (TransactionModel.mk 20 1 ⟨2025, 9, 15⟩ ∈
        previousPeriodTransactions [TransactionModel.mk 20 1 ⟨2025, 9, 15⟩]
          .monthly ⟨2025, 10, 11⟩ ↔
        TransactionModel.mk 20 1 ⟨2025, 9, 15⟩ ∈ [TransactionModel.mk 20 1 ⟨2025, 9, 15⟩]
        ∧ rataDie (previousPeriodRange .monthly ⟨2025, 10, 11⟩).start
            ≤ rataDie (TransactionModel.mk 20 1 ⟨2025, 9, 15⟩).transaction_time
        ∧ rataDie (TransactionModel.mk 20 1 ⟨2025, 9, 15⟩).transaction_time
            ≤ rataDie (previousPeriodRange .monthly ⟨2025, 10, 11⟩).endDate)
    ∧ rataDie (previousPeriodRange .weekly ⟨2025, 10, 11⟩).endDate + 1
        = rataDie (dateRange .weekly ⟨2025, 10, 11⟩).start
    ∧ rataDie (previousPeriodRange .quarterly ⟨2025, 10, 11⟩).endDate + 1
        = rataDie (dateRange .quarterly ⟨2025, 10, 11⟩).start :=
  claim_C7 ⟨2025, 10, 11⟩ [TransactionModel.mk 20 1 ⟨2025, 9, 15⟩]
    (TransactionModel.mk 20 1 ⟨2025, 9, 15⟩) .monthly (by decide) (by norm_num)

/-- Flushing adds at most one record, and only when an action is present. -/
theorem flushPartial_length_le (acts : List SpecificAction) (cur : PartialAction) :
    (flushPartial acts cur).length ≤ acts.length + (if cur.action.isSome then 1 else 0) := by
  rcases cur with ⟨a, s, d⟩
  rcases a with _ | a <;> rcases s with _ | s <;> rcases d with _ | d <;>
    simp [flushPartial, PartialAction.completed]
  by_cases ha : a = "" <;> simp [ha]

/-- A RECOMMENDATION line flushes and restarts the accumulator. -/
theorem parseLine_of_rec {acts : List SpecificAction} {cur : PartialAction}
    {line : String} {a : String} (hr : recommendationAction line = some a) :
    parseLine (acts, cur) line = (flushPartial acts cur, ⟨some a, none, none⟩) := by
  unfold parseLine
  rw [hr]

/-- A non-RECOMMENDATION line emits nothing and keeps the action field. -/
theorem parseLine_of_not_rec {acts : List SpecificAction} {cur : PartialAction}
    {line : String} (hr : recommendationAction line = none) :
    (parseLine (acts, cur) line).1 = acts ∧
    (parseLine (acts, cur) line).2.action = cur.action := by
  unfold parseLine
  rw [hr]
  rcases hs : savingsMatch line.toList with _ | v
  · rcases hd : difficultyMatch line.toList with _ | d
    · exact ⟨rfl, rfl⟩
    · exact ⟨rfl, rfl⟩
  · exact ⟨rfl, rfl⟩

/-- Scanner invariant: emitted records plus the pending action never exceed
the number of RECOMMENDATION-matching lines seen. -/
theorem foldl_parseLine_count (lines : List String) :
    ∀ (acts : List SpecificAction) (cur : PartialAction),
      (lines.foldl parseLine (acts, cur)).1.length
        + (if (lines.foldl parseLine (acts, cur)).2.action.isSome then 1 else 0)
      ≤ acts.length + (if cur.action.isSome then 1 else 0)
        + lines.countP (fun l => (recommendationAction l).isSome) := by
  induction lines with
  | nil => intro acts cur; simp
  | cons l ls ih =>
    intro acts cur
    rw [List.foldl_cons, List.countP_cons]
    rcases hr : recommendationAction l with _ | a
    · obtain ⟨h1, h2⟩ := @parseLine_of_not_rec acts cur l hr
      have heq : parseLine (acts, cur) l = (acts, (parseLine (acts, cur) l).2) :=
        Prod.ext h1 rfl
      rw [heq]
      have hmain := ih acts (parseLine (acts, cur) l).2
      rw [h2] at hmain
      simp only [hr, Option.isSome_none] at *
      omega
    · rw [parseLine_of_rec hr]
      have hmain := ih (flushPartial acts cur) ⟨some a, none, none⟩
      have hflush := flushPartial_length_le acts cur
      simp only [hr, Option.isSome_some] at *
      rcases hcs : cur.action.isSome <;> simp [hcs] at hmain hflush ⊢ <;> omega

/-- The extracted actions are bounded by the RECOMMENDATION line count. -/
theorem extractActions_length_le (lines : List String) :
    (extractActions lines).length ≤ lines.countP (fun l => (recommendationAction l).isSome) := by
  have h := foldl_parseLine_count lines [] ⟨none, none, none⟩
  have hflush := flushPartial_length_le (lines.foldl parseLine ([], ⟨none, none, none⟩)).1
      (lines.foldl parseLine ([], ⟨none, none, none⟩)).2
  show (flushPartial (lines.foldl parseLine ([], ⟨none, none, none⟩)).1
      (lines.foldl parseLine ([], ⟨none, none, none⟩)).2).length ≤ _
  simp only [List.length_nil, Option.isSome_none] at h
  rcases hcs : (lines.foldl parseLine ([], ⟨none, none, none⟩)).2.action.isSome <;>
    simp [hcs] at h hflush <;> omega

/-- On input whose lines never match the RECOMMENDATION regex the scanner
keeps an empty action field and emits nothing. -/
theorem foldl_parseLine_no_rec (lines : List String)
    (h : ∀ l ∈ lines, recommendationAction l = none) :
    ∀ (cur : PartialAction),
      (lines.foldl parseLine ([], cur)).1 = [] ∧
      (lines.foldl parseLine ([], cur)).2.action = cur.action := by
  induction lines with
  | nil => intro cur; exact ⟨rfl, rfl⟩
  | cons l ls ih =>
    intro cur
    rw [List.foldl_cons]
    have hr : recommendationAction l = none := h l (by simp)
    obtain ⟨h1, h2⟩ := @parseLine_of_not_rec [] cur l hr
    have hmain := ih (fun x hx => h x (by simp [hx])) (parseLine ([], cur) l).2
    have heq : parseLine ([], cur) l = ([], (parseLine ([], cur) l).2) :=
      Prod.ext h1 rfl
    rw [heq]
    exact ⟨hmain.1, hmain.2.trans h2⟩

/-- Without any RECOMMENDATION match no structured action is produced. -/
theorem extractActions_eq_nil (lines : List String)
    (h : ∀ l ∈ lines, recommendationAction l = none) :
    extractActions lines = [] := by
  obtain ⟨h1, h2⟩ := foldl_parseLine_no_rec lines h ⟨none, none, none⟩
  show flushPartial (lines.foldl parseLine ([], ⟨none, none, none⟩)).1
      (lines.foldl parseLine ([], ⟨none, none, none⟩)).2 = []
  rw [h1]
  rcases hc : (lines.foldl parseLine ([], ⟨none, none, none⟩)).2 with ⟨a, s, d⟩
  rw [hc] at h2
  simp only at h2
  subst h2
  rcases s <;> rcases d <;> rfl

/-- C6 (counterexample): content with no RECOMMENDATION marker but a bullet
line yields the stripped bullet line, not the raw content, as the sole
recommendation. -/
theorem claim_C6_counterexample :
    (contentLines "- cut coffee subscriptions\nkeep the change").all
      (fun l => (findMarkerSuffix "recommendation:".toList l.toList).isNone) = true
    ∧ (buildSavingsResponse 1000 50 300 "- cut coffee subscriptions\nkeep the change"
        none "m").recommendations = ["cut coffee subscriptions"]
    ∧ (["cut coffee subscriptions"] : List String)
        ≠ ["- cut coffee subscriptions\nkeep the change"] := by
  refine ⟨by decide, by decide, by decide⟩

/-- C6 (amended): the scanner groups RECOMMENDATION/SAVINGS/DIFFICULTY
triples (emitting at most one record per RECOMMENDATION line, flushing on
each new RECOMMENDATION line and keeping the trailing record only when
complete); on content with no RECOMMENDATION match it emits no structured
action and does not raise, and the recommendations fall back to the
stripped bullet/numbered lines — the raw content becomes the sole entry
only when there are no such lines. -/
theorem claim_C6_amended (remainingToGoal currentMonthlySavings averageMonthlySpending : Rat)
    (content : String) (totalTokens : Option Nat) (model : String)
    (hno : (contentLines content).all
      (fun l => (findMarkerSuffix "recommendation:".toList l.toList).isNone) = true) :
    extractActions (contentLines content) = []
    ∧ ((buildSavingsResponse remainingToGoal currentMonthlySavings averageMonthlySpending
          content totalTokens model).recommendations =
        if ((contentLines content).filter fun l => isBulletLine l && !hasMarker l) = []
        then [content]
        else ((contentLines content).filter fun l => isBulletLine l && !hasMarker l).map
               fun s => strTrim (stripBullet s))
    ∧ ∀ lines : List String, (extractActions lines).length ≤
        lines.countP fun l => (recommendationAction l).isSome := by
  have hnil : extractActions (contentLines content) = [] := by
    refine extractActions_eq_nil _ (fun l hl => ?_)
    have hmm := List.all_eq_true.mp hno l hl
    unfold recommendationAction
    rcases hF : findMarkerSuffix "recommendation:".toList l.toList with _ | suf
    · rfl
    · rw [hF] at hmm
      simp at hmm
  refine ⟨hnil, ?_, fun lines => extractActions_length_le lines⟩
  rcases hfb : (contentLines content).filter (fun l => isBulletLine l && !hasMarker l)
      with _ | ⟨x, xs⟩
  · simp [buildSavingsResponse, hnil, hfb]
  · simp [buildSavingsResponse, hnil, hfb]

/-- C6 (witness): the amended statement applied to marker-free content with
no bullet lines, where the raw content is the sole recommendation. -/
theorem claim_C6_witness :
    extractActions (contentLines "nothing structured here") = []
    ∧ ((buildSavingsResponse 1000 50 300 "nothing structured here"
          none "m").recommendations =
        if ((contentLines "nothing structured here").filter
              fun l => isBulletLine l && !hasMarker l) = []
        then ["nothing structured here"]
        else ((contentLines "nothing structured here").filter
              fun l => isBulletLine l && !hasMarker l).map
               fun s => strTrim (stripBullet s))
    ∧ ∀ lines : List String, (extractActions lines).length ≤
        lines.countP fun l => (recommendationAction l).isSome :=
  claim_C6_amended 1000 50 300 "nothing structured here" none "m" (by decide)

end SavFlo
